import Mathlib

/-!
# Boiler Modbus utilities (`change_sp`, `graphic`, `tt-status_ro`)

A shallow embedding of the three command-line programs under
`chronos/utils/modbus_sp/` and the properties their specification states.

Modelling conventions

* The command line is the sequence of results `getopt` hands to the option
  loop (`Opt`); the arguments of `-p` and `-t` are carried as the integer
  `atoi(optarg)` returns.
* libmodbus is an external collaborator: a `Transport` answers every call from
  the history of the calls made before it.  A program run records the calls in
  order (`Run.calls`).
* `double`/`float` arithmetic is modelled by exact rational arithmetic; the
  values recorded for a printed line are the arguments handed to `printf`.
* A register buffer holds the registers of the most recent read, cut at the
  declared array length; indexing returns `Option`, and a read that asks for
  more registers than the array holds is recorded in `Run.overruns`.
* The conversion `int c_to_f(float)` of `change_sp.c` and `tt-status_ro.c` and
  the table `status[]` are never used by the programs and are left out.
-/

namespace Chronos

/-! ## Definitions -/

/-! ### Command line -/

/-- One result of `getopt(argc, argv, ...)`.  `unknown` is the `'?'` result
(unrecognised option or missing argument). -/
inductive Opt where
  | h
  | s (optarg : List Char)
  | i (optarg : List Char)
  | p (n : Int)
  | t (n : Int)
  | unknown
  deriving DecidableEq, Repr

/-- Characters `strncpy(dst, src, n)` leaves in `dst` before the first NUL
(when `src` has `n` or more characters none is written; the model keeps the
`n` characters copied). -/
def strncpy (n : Nat) (src : List Char) : List Char := src.take n

/-- Effect of `buf[k] = 0` on the C string held in `buf`. -/
def nul_at (k : Nat) (buf : List Char) : List Char := buf.take k

/-! ### Transport, report lines and register buffers -/

/-- A call into libmodbus. -/
inductive Call where
  | new_tcp (ip : List Char) (port : Int)
  | new_rtu (device : List Char) (baud : Int) (parity : Char) (data_bit stop_bit : Int)
  | set_slave (slave : Int)
  | connect
  | read_registers (addr nb : Int)
  | read_input_registers (addr nb : Int)
  | write_register (addr value : Int)
  | close
  | free
  deriving DecidableEq, Repr

/-- What a call gives back: the return value (`0` for a NULL context from a
constructor) and, for a read, the register values the device delivered. -/
structure Reply where
  ret : Int
  data : Nat → Int := fun _ => 0

/-- A transport behaviour: the reply to a call, given the calls made so far. -/
abbrev Transport := List Call → Call → Reply

/-- An argument passed to `printf`: a number, an array element read outside
the register buffer, or a variable read before any assignment. -/
inductive Val where
  | num (q : ℚ)
  | outside
  | indeterminate
  deriving DecidableEq

/-- One `printf` of the report: the format text (blank runs and the newline
dropped) and the arguments passed. -/
structure Line where
  text : String
  vals : List Val
  deriving DecidableEq

/-- Observable state of a running program. -/
structure St where
  calls : List Call := []
  out : List Line := []
  /-- Reads that asked for more registers than the destination array holds:
  (declared length, registers requested). -/
  overruns : List (Nat × Nat) := []

/-- The result of a run: exit status, libmodbus calls in order, report lines. -/
structure Run where
  status : Int
  calls : List Call
  out : List Line
  overruns : List (Nat × Nat)

/-- The call `exit(status)` made before any transport exists. -/
def exit_with (status : Int) : Run :=
  { status := status, calls := [], out := [], overruns := [] }

/-- Perform one libmodbus call. -/
def invoke (T : Transport) (s : St) (c : Call) : Reply × St :=
  (T s.calls c, { s with calls := s.calls ++ [c] })

/-- One `printf` to standard output. -/
def emit (s : St) (text : String) (vals : List Val) : St :=
  { s with out := s.out ++ [{ text := text, vals := vals }] }

/-- Value of an `int16_t` holding the 16-bit register `v`. -/
def toInt16 (v : Int) : Int := (v + 32768) % 65536 - 32768

/-- An `int16_t name[decl]` array; `cells` are the registers of the most
recent read into it that fit in the array. -/
structure Buf where
  decl : Nat
  cells : List Int := []

/-- The array element `regs[k]`. -/
def Buf.reg (b : Buf) (k : Nat) : Option Int := b.cells[k]?

/-- A `printf` argument computed from an array element by the expression `f`. -/
def arg (v : Option Int) (f : Int → ℚ) : Val :=
  match v with
  | some x => .num (f x)
  | none => .outside

/-- An array element passed to `%d` unchanged. -/
def int_arg (v : Option Int) : Val := arg v fun x => (x : ℚ)

/-- The call `modbus_read_registers` / `modbus_read_input_registers`
`(mb, addr, nb, dest)`: the registers returned are stored in `dest`. -/
def read_into (T : Transport) (s : St) (c : Call) (nb : Nat) (dest : Buf) : Int × Buf × St :=
  let r := invoke T s c
  let s1 : St := if dest.decl < nb then { r.2 with overruns := r.2.overruns ++ [(dest.decl, nb)] } else r.2
  let stored := (List.range (min (min r.1.ret.toNat nb) dest.decl)).map fun k => toInt16 (r.1.data k)
  (r.1.ret, { dest with cells := stored }, s1)

/-- The code at label `out:`: `modbus_close(mb); modbus_free(mb); return err;`. -/
def out_label (T : Transport) (s : St) (err : Int) : Run :=
  let s := (invoke T s .close).2
  let s := (invoke T s .free).2
  { status := err, calls := s.calls, out := s.out, overruns := s.overruns }

/-! ### `change_sp.c` -/

/-- Locals of `main` in `change_sp.c` that the option loop sets.  `spt` is
not initialised by the program. -/
structure SpConfig where
  sp : Int := 85
  spt : Option Int := none
  port : Int := 502
  ipaddr : List Char := []
  serport : List Char := []
  deriving DecidableEq

/-- The C function `trunc`: round toward zero. -/
def trunc (x : ℚ) : Int := if 0 ≤ x then ⌊x⌋ else ⌈x⌉

def INT_MIN : Int := -2147483648

def INT_MAX : Int := 2147483647

/-- Conversion of an integral `double` to `int` in the assignment to `sp`.
It is exact when the value fits; C leaves the other case undefined and the
model saturates, as the hardware conversion does. -/
def double_to_int (x : Int) : Int :=
  if x < INT_MIN then INT_MIN else if INT_MAX < x then INT_MAX else x

/-- The expression `-101.4856+1.7363171*atoi(optarg)`, in exact arithmetic. -/
def setpoint_value (n : Int) : ℚ := -101.4856 + 1.7363171 * (n : ℚ)

/-- The expression `trunc(-101.4856+1.7363171*atoi(optarg))` assigned to `sp`. -/
def setpoint_percent (n : Int) : Int :=
  double_to_int (trunc (setpoint_value n))

/-- One pass through the `switch (c)` of `change_sp.c`; `.error e` is `exit(e)`. -/
def change_sp_case (cfg : SpConfig) : Opt → Except Int SpConfig
  | .h => .error 1
  | .s optarg => .ok { cfg with serport := nul_at 31 (strncpy 32 optarg) }
  | .i optarg => .ok { cfg with ipaddr := strncpy 16 optarg, serport := nul_at 31 cfg.serport }
  | .p n => .ok { cfg with port := n }
  | .t n =>
    let sp := setpoint_percent n
    if sp > 100 ∨ sp < 0 then .error 1 else .ok { cfg with sp := sp, spt := some n }
  | .unknown => .error 1

/-- The `while ((c = getopt(...)) != -1)` loop of `change_sp.c`. -/
def change_sp_getopt (cfg : SpConfig) : List Opt → Except Int SpConfig
  | [] => .ok cfg
  | o :: rest =>
    match change_sp_case cfg o with
    | .error e => .error e
    | .ok cfg1 => change_sp_getopt cfg1 rest

/-- Option loop followed by the two transport-selection checks (both call
`usage()`, which exits with status 1). -/
def change_sp_options (argv : List Opt) : Except Int SpConfig :=
  match change_sp_getopt {} argv with
  | .error e => .error e
  | .ok cfg =>
    if cfg.ipaddr = [] ∧ cfg.serport = [] then .error 1
    else if cfg.ipaddr ≠ [] ∧ cfg.serport ≠ [] then .error 1
    else .ok cfg

/-- The six `printf("Reg4000k: %d \n", regs[k-1])` lines. -/
def print_regs (s : St) (regs : Buf) : St :=
  let s := emit s "Reg40001: %d " [int_arg (regs.reg 0)]
  let s := emit s "Reg40002: %d " [int_arg (regs.reg 1)]
  let s := emit s "Reg40003: %d " [int_arg (regs.reg 2)]
  let s := emit s "Reg40004: %d " [int_arg (regs.reg 3)]
  let s := emit s "Reg40005: %d " [int_arg (regs.reg 4)]
  emit s "Reg40006: %d " [int_arg (regs.reg 5)]

/-- The part of `main` of `change_sp.c` from the construction of the context to `return err`. -/
def change_sp_session (T : Transport) (cfg : SpConfig) : Run :=
  let s : St := {}
  let regs : Buf := { decl := 8 }
  let mb := invoke T s
    (if cfg.ipaddr ≠ [] then .new_tcp cfg.ipaddr cfg.port else .new_rtu cfg.serport 9600 'E' 8 1)
  let s := mb.2
  if mb.1.ret = 0 then out_label T s 1 else
  let rc := invoke T s (.set_slave 1)
  let s := rc.2
  if rc.1.ret ≠ 0 then out_label T s 1 else
  let rc := invoke T s .connect
  let s := rc.2
  if rc.1.ret ≠ 0 then out_label T s 1 else
  let rd := read_into T s (.read_registers 0x40000 7) 7 regs
  let regs := rd.2.1
  let s := rd.2.2
  if rd.1 ≠ 7 then
    out_label T (emit s "Error: Modbus read of 7 regs at addr 0x40000 failed" []) 1 else
  let s := print_regs s regs
  let rc := invoke T s (.write_register 0x40000 4)
  let s := rc.2
  if rc.1.ret ≠ 1 then out_label T (emit s "Error: Modbus write of 0x40001 failed" []) 1 else
  let s := emit s "Writing Configuration = 4 " []
  let s := print_regs s regs
  let s := emit s "Writing Setpoint = %i degree (%i percent) " [match cfg.spt with | some v => .num v | none => .indeterminate, .num cfg.sp]
  let rc := invoke T s (.write_register 0x40002 cfg.sp)
  let s := rc.2
  if rc.1.ret ≠ 1 then out_label T (emit s "Error: Modbus write of 0x40003 failed" []) 1 else
  let rd := read_into T s (.read_registers 0x40000 7) 7 regs
  let regs := rd.2.1
  let s := rd.2.2
  if rd.1 ≠ 7 then
    out_label T (emit s "Error: Modbus read of 7 regs at addr 0x40000 failed" []) 1 else
  let s := print_regs s regs
  let s := emit s "System Supply Temp: %.1f °C" [arg (regs.reg 6) fun r => 1.0 * r / 10]
  out_label T s 0

/-- The program `change_sp`. -/
def change_sp_main (T : Transport) (argv : List Opt) : Run :=
  match change_sp_options argv with
  | .error e => exit_with e
  | .ok cfg => change_sp_session T cfg

/-! ### `graphic.c` and `tt-status_ro.c`: option handling

The option loop and the two transport-selection checks are the same text in
both files. -/

/-- Locals of `main` that the option loop sets (`graphic.c`, `tt-status_ro.c`). -/
structure Config where
  port : Int := 502
  ipaddr : List Char := []
  serport : List Char := []
  deriving DecidableEq

/-- One pass through the `switch (c)`; the option string is `"hs:i:p:"`, so a
`-t` reaches the `default:` case like any unrecognised option. -/
def status_case (cfg : Config) : Opt → Except Int Config
  | .h => .error 1
  | .s optarg => .ok { cfg with serport := nul_at 31 (strncpy 32 optarg) }
  | .i optarg => .ok { cfg with ipaddr := strncpy 16 optarg, serport := nul_at 31 cfg.serport }
  | .p n => .ok { cfg with port := n }
  | .t _ => .error 1
  | .unknown => .error 1

/-- The `while ((c = getopt(...)) != -1)` loop. -/
def status_getopt (cfg : Config) : List Opt → Except Int Config
  | [] => .ok cfg
  | o :: rest =>
    match status_case cfg o with
    | .error e => .error e
    | .ok cfg1 => status_getopt cfg1 rest

/-- Option loop followed by the two transport-selection checks. -/
def status_options (argv : List Opt) : Except Int Config :=
  match status_getopt {} argv with
  | .error e => .error e
  | .ok cfg =>
    if cfg.ipaddr = [] ∧ cfg.serport = [] then .error 1
    else if cfg.ipaddr ≠ [] ∧ cfg.serport ≠ [] then .error 1
    else .ok cfg

/-! ### `graphic.c` -/

/-- The function `float c_to_f(float c)` of `graphic.c`. -/
def c_to_f (c : ℚ) : ℚ := (9.0 / 5.0) * c + 32.0

/-- The part of `main` of `graphic.c` from the construction of the context to `return err`. -/
def graphic_session (T : Transport) (cfg : Config) : Run :=
  let s : St := {}
  let iregs : Buf := { decl := 9 }
  let hregs : Buf := { decl := 9 }
  let mb := invoke T s
    (if cfg.ipaddr ≠ [] then .new_tcp cfg.ipaddr cfg.port else .new_rtu cfg.serport 38400 'N' 8 1)
  let s := mb.2
  if mb.1.ret = 0 then out_label T s 1 else
  let rc := invoke T s (.set_slave 1)
  let s := rc.2
  if rc.1.ret ≠ 0 then out_label T s 1 else
  let rc := invoke T s .connect
  let s := rc.2
  if rc.1.ret ≠ 0 then out_label T s 1 else
  let rd := read_into T s (.read_registers 0x40000 7) 7 hregs
  let hregs := rd.2.1
  let s := rd.2.2
  if rd.1 ≠ 7 then
    out_label T (emit s "Error: Modbus read of 7 regs at addr 0x40000 failed" []) 1 else
  let s := emit s "System Supply Temp: %5.1f°C %5.1f°F"
    [arg (hregs.reg 6) fun r => 1.0 * r / 10, arg (hregs.reg 6) fun r => c_to_f (Int.tdiv r 10 : Int)]
  let rd := read_into T s (.read_input_registers 0x30003 9) 9 iregs
  let iregs := rd.2.1
  let s := rd.2.2
  if rd.1 ≠ 9 then
    out_label T (emit s "Error: Modbus read input at addr 0x30003 failed" []) 1 else
  let s := emit s "System Supply Setp: %5.1f°C %5.1f°F"
    [arg (iregs.reg 0) fun r => 1.0 * r / 2, arg (iregs.reg 0) fun r => c_to_f (Int.tdiv r 2 : Int)]
  let s := emit s "Cascade Current Power: %5.1f%%" [arg (iregs.reg 3) fun r => 1.0 * r]
  let s := emit s "Outlet Setp: %5.1f°C %5.1f°F"
    [arg (iregs.reg 4) fun r => 1.0 * r / 10, arg (iregs.reg 4) fun r => c_to_f (Int.tdiv r 10 : Int)]
  let s := emit s "Outlet Temp: %5.1f°C %5.1f°F"
    [arg (iregs.reg 5) fun r => 1.0 * r / 10, arg (iregs.reg 5) fun r => c_to_f (Int.tdiv r 10 : Int)]
  let s := emit s "Inlet Temp: %5.1f°C %5.1f°F"
    [arg (iregs.reg 6) fun r => 1.0 * r / 10, arg (iregs.reg 6) fun r => c_to_f (Int.tdiv r 10 : Int)]
  let s := emit s "Flue Temp: %5.1f°C %5.1f°F"
    [arg (iregs.reg 7) fun r => 1.0 * r / 10, arg (iregs.reg 7) fun r => c_to_f (Int.tdiv r 10 : Int)]
  let s := emit s "Firing Rate: %5.1f%%" [arg (iregs.reg 8) fun r => 1.0 * r]
  let s := emit s "" []
  let s := emit s "+-------------+(%5.1f°C) (%5.1f°C)"
    [arg (iregs.reg 4) fun r => 1.0 * r / 10, arg (iregs.reg 0) fun r => 1.0 * r / 2]
  let s := emit s "| | %5.1f°C %5.1f°C"
    [arg (iregs.reg 5) fun r => 1.0 * r / 10, arg (hregs.reg 6) fun r => 1.0 * r / 10]
  let s := emit s "| |---------------------------->" []
  let s := emit s "| |" []
  let s := emit s "| |" []
  let s := emit s "| Firing Rate |" []
  let s := emit s "| %3.0f%% |" [arg (iregs.reg 8) fun r => 1.0 * r]
  let s := emit s "| \x5c|/ | %5.1f°C" [arg (iregs.reg 6) fun r => 1.0 * r / 10]
  let s := emit s "| |<----------------------------" []
  let s := emit s "| |" []
  let s := emit s "+-------------+" []
  out_label T s 0

/-- The program `graphic`. -/
def graphic_main (T : Transport) (argv : List Opt) : Run :=
  match status_options argv with
  | .error e => exit_with e
  | .ok cfg => graphic_session T cfg

/-! ### `tt-status_ro.c` -/

/-- The part of `main` of `tt-status_ro.c` from the construction of the context to `return err`. -/
def tt_status_ro_session (T : Transport) (cfg : Config) : Run :=
  let s : St := {}
  let regs : Buf := { decl := 8 }
  let mb := invoke T s
    (if cfg.ipaddr ≠ [] then .new_tcp cfg.ipaddr cfg.port else .new_rtu cfg.serport 9600 'E' 8 1)
  let s := mb.2
  if mb.1.ret = 0 then out_label T s 1 else
  let rc := invoke T s (.set_slave 1)
  let s := rc.2
  if rc.1.ret ≠ 0 then out_label T s 1 else
  let rc := invoke T s .connect
  let s := rc.2
  if rc.1.ret ≠ 0 then out_label T s 1 else
  let rd := read_into T s (.read_input_registers 0x30003 2) 2 regs
  let regs := rd.2.1
  let s := rd.2.2
  if rd.1 ≠ 2 then
    out_label T (emit s "Error: Modbus read input at addr 0x300 failed" []) 1 else
  let s := emit s "System Supply Setp: %.1f °F" [arg (regs.reg 0) fun r => 2.0 * r / 2 + 32]
  let rd := read_into T s (.read_registers 0x40000 7) 7 regs
  let regs := rd.2.1
  let s := rd.2.2
  if rd.1 ≠ 7 then
    out_label T (emit s "Error: Modbus read of 7 regs at addr 0x40000 failed" []) 1 else
  let s := emit s "Reg0: %d " [int_arg (regs.reg 0)]
  let s := emit s "Reg1: %d " [int_arg (regs.reg 1)]
  let s := emit s "Reg2: %d " [int_arg (regs.reg 2)]
  let s := emit s "Reg3: %d " [int_arg (regs.reg 3)]
  let s := emit s "Reg4: %d " [int_arg (regs.reg 4)]
  let s := emit s "Reg5: %d " [int_arg (regs.reg 5)]
  let s := emit s "System Supply Temp: %.1f °F" [arg (regs.reg 6) fun r => 2.0 * r / 10 + 32]
  let rd := read_into T s (.read_registers 0x40000 7) 7 regs
  let regs := rd.2.1
  let s := rd.2.2
  if rd.1 ≠ 7 then
    out_label T (emit s "Error: Modbus read of 7 regs at addr 0x40000 failed" []) 1 else
  let s := emit s "Reg0: %d " [int_arg (regs.reg 0)]
  let s := emit s "Reg1: %d " [int_arg (regs.reg 1)]
  let s := emit s "Reg2: %d " [int_arg (regs.reg 2)]
  let s := emit s "Reg3: %d " [int_arg (regs.reg 3)]
  let s := emit s "Reg4: %d " [int_arg (regs.reg 4)]
  let s := emit s "Reg5: %d " [int_arg (regs.reg 5)]
  let s := emit s "System Supply Temp: %.1f °F" [arg (regs.reg 6) fun r => (1.0 * r / 10) * 9 / 5 + 32]
  let s := emit s "System Supply Setp: %.1f °F" [arg (regs.reg 0) fun r => (1.0 * r / 2) * 9 / 5 + 32]
  let rd := read_into T s (.read_input_registers 0x30003 9) 9 regs
  let regs := rd.2.1
  let s := rd.2.2
  if rd.1 ≠ 9 then
    out_label T (emit s "Error: Modbus read input at addr 0x30003 failed" []) 1 else
  let s := emit s "System Supply Setp: %5.1f °F" [arg (regs.reg 0) fun r => (1.0 * r / 2) * 9 / 5 + 32]
  let s := emit s "Cascade Current Power: %5.1f %" [arg (regs.reg 3) fun r => 1.0 * r]
  let s := emit s "Outlet Setp: %5.1f °F" [arg (regs.reg 4) fun r => (1.0 * r / 10) * 9 / 5 + 32]
  let s := emit s "Outlet Temp: %5.1f °F" [arg (regs.reg 5) fun r => (1.0 * r / 10)]
  let s := emit s "Inlet Temp: %5.1f °F" [arg (regs.reg 6) fun r => (1.0 * r / 10) * 9 / 5 + 32]
  let s := emit s "Flue Temp: %5.1f °F" [arg (regs.reg 7) fun r => (1.0 * r / 10) * 9 / 5 + 32]
  let s := emit s "Firing Rate: %5.1f %" [arg (regs.reg 8) fun r => 1.0 * r]
  out_label T s 0

/-- The program `tt-status_ro`. -/
def tt_status_ro_main (T : Transport) (argv : List Opt) : Run :=
  match status_options argv with
  | .error e => exit_with e
  | .ok cfg => tt_status_ro_session T cfg

/-! ### Example transports -/

/-- A boiler on which every operation succeeds: holding-register reads deliver
`holding`, input-register reads deliver `input`. -/
def boiler (holding input : List Int) : Transport := fun _ c =>
  match c with
  | .new_tcp _ _ => { ret := 1 }
  | .new_rtu _ _ _ _ _ => { ret := 1 }
  | .set_slave _ => { ret := 0 }
  | .connect => { ret := 0 }
  | .read_registers _ nb => { ret := nb, data := fun k => holding.getD k 0 }
  | .read_input_registers _ nb => { ret := nb, data := fun k => input.getD k 0 }
  | .write_register _ _ => { ret := 1 }
  | .close => { ret := 0 }
  | .free => { ret := 0 }

/-! ### Specification-side definitions -/

/-- The setpoint as the specification words it:
`sp = floor(-101.4856 + 1.7363171 * input)`. -/
def spec_setpoint (n : Int) : Int := ⌊setpoint_value n⌋

/-- The reply `r` to the call `c` is one the programs treat as a failure: a
NULL context, a non-zero result of set-slave or connect, a read count other
than the one requested, a write count other than 1. -/
def failed (c : Call) (r : Reply) : Prop :=
  match c with
  | .new_tcp _ _ => r.ret = 0
  | .new_rtu _ _ _ _ _ => r.ret = 0
  | .set_slave _ => r.ret ≠ 0
  | .connect => r.ret ≠ 0
  | .read_registers _ nb => r.ret ≠ nb
  | .read_input_registers _ nb => r.ret ≠ nb
  | .write_register _ _ => r.ret ≠ 1
  | .close => False
  | .free => False

instance (c : Call) (r : Reply) : Decidable (failed c r) := by
  cases c <;> (unfold failed; infer_instance)

/-- Calls and exit status of a program that issues the calls of a plan in
order after the history `h`, stops at the first failure, then closes and frees. -/
def script (T : Transport) (h : List Call) : List Call → List Call × Int
  | [] => (h ++ [.close, .free], 0)
  | c :: rest =>
    if failed c (T h c) then (h ++ [c, .close, .free], 1) else script T (h ++ [c]) rest

/-- A run is the fail-stop execution of `plan`: either every call of the plan
was issued and succeeded and the status is 0, or the calls stop at the first
failing call of the plan and the status is 1; in both cases `close` and `free`
follow, once each. -/
def FailStop (T : Transport) (plan : List Call) (r : Run) : Prop :=
  (r.status = 0 ∧ r.calls = plan ++ [.close, .free] ∧
      ∀ k c, plan[k]? = some c → ¬ failed c (T (plan.take k) c)) ∨
  (r.status = 1 ∧ ∃ k c, plan[k]? = some c ∧
      r.calls = plan.take (k + 1) ++ [.close, .free] ∧
      failed c (T (plan.take k) c) ∧
      ∀ j d, j < k → plan[j]? = some d → ¬ failed d (T (plan.take j) d))

/-- The calls `change_sp` issues when nothing fails, before `close`/`free`. -/
def change_sp_plan (cfg : SpConfig) : List Call :=
  [if cfg.ipaddr ≠ [] then .new_tcp cfg.ipaddr cfg.port else .new_rtu cfg.serport 9600 'E' 8 1,
   .set_slave 1, .connect,
   .read_registers 0x40000 7, .write_register 0x40000 4, .write_register 0x40002 cfg.sp,
   .read_registers 0x40000 7]

/-- The calls `graphic` issues when nothing fails, before `close`/`free`. -/
def graphic_plan (cfg : Config) : List Call :=
  [if cfg.ipaddr ≠ [] then .new_tcp cfg.ipaddr cfg.port else .new_rtu cfg.serport 38400 'N' 8 1,
   .set_slave 1, .connect,
   .read_registers 0x40000 7, .read_input_registers 0x30003 9]

/-- The calls `tt-status_ro` issues when nothing fails, before `close`/`free`. -/
def tt_status_ro_plan (cfg : Config) : List Call :=
  [if cfg.ipaddr ≠ [] then .new_tcp cfg.ipaddr cfg.port else .new_rtu cfg.serport 9600 'E' 8 1,
   .set_slave 1, .connect,
   .read_input_registers 0x30003 2, .read_registers 0x40000 7, .read_registers 0x40000 7,
   .read_input_registers 0x30003 9]

/-- The calls that read or write registers. -/
def Call.is_register_op : Call → Bool
  | .read_registers _ _ => true
  | .read_input_registers _ _ => true
  | .write_register _ _ => true
  | _ => false

/-- A transport on which `connect` fails and everything else succeeds. -/
def no_connect : Transport := fun h c =>
  match c with
  | .connect => { ret := -1 }
  | _ => boiler [] [] h c

/-- A transport on which a read of 7 holding registers delivers 5 and
everything else succeeds. -/
def short_read : Transport := fun h c =>
  match c with
  | .read_registers _ 7 => { ret := 5 }
  | _ => boiler [] [] h c

/-- The argument of a `-i` option. -/
def Opt.i_arg : Opt → Option (List Char)
  | .i a => some a
  | _ => none

/-- The argument of a `-s` option. -/
def Opt.s_arg : Opt → Option (List Char)
  | .s a => some a
  | _ => none

/-- The argument of a `-p` option. -/
def Opt.p_arg : Opt → Option Int
  | .p n => some n
  | _ => none

/-- The address given on the command line: the argument of the last `-i`,
empty when there is none. -/
def given_i (argv : List Opt) : List Char := (argv.reverse.findSome? Opt.i_arg).getD []

/-- The device given on the command line: the argument of the last `-s`,
empty when there is none. -/
def given_s (argv : List Opt) : List Char := (argv.reverse.findSome? Opt.s_arg).getD []

/-- The port given on the command line: the argument of the last `-p`, 502
when there is none. -/
def given_p (argv : List Opt) : Int := (argv.reverse.findSome? Opt.p_arg).getD 502

/-- Options that let the option loop of `change_sp` continue. -/
def change_sp_accepts : Opt → Prop
  | .s _ => True
  | .i _ => True
  | .p _ => True
  | .t n => 58 ≤ n ∧ n ≤ 116
  | _ => False

/-- Options that let the option loop of `graphic` and `tt-status_ro` continue. -/
def status_accepts : Opt → Prop
  | .s _ => True
  | .i _ => True
  | .p _ => True
  | _ => False

instance (o : Opt) : Decidable (change_sp_accepts o) := by
  cases o <;> (unfold change_sp_accepts; infer_instance)

instance (o : Opt) : Decidable (status_accepts o) := by
  cases o <;> (unfold status_accepts; infer_instance)

/-- The calls that construct a context. -/
def Call.is_constructor : Call → Bool
  | .new_tcp _ _ => true
  | .new_rtu _ _ _ _ _ => true
  | _ => false

/-! ## Theorems -/

/-! ### The setpoint formula -/

theorem double_to_int_of_fits (y : Int) (h0 : 0 ≤ y) (h1 : y ≤ 100) : double_to_int y = y := by
  unfold double_to_int INT_MIN INT_MAX
  split_ifs <;> omega

theorem double_to_int_range (y : Int) :
    (0 ≤ double_to_int y ∧ double_to_int y ≤ 100) ↔ (0 ≤ y ∧ y ≤ 100) := by
  unfold double_to_int INT_MIN INT_MAX
  split_ifs <;> omega

theorem trunc_range (x : ℚ) : (0 ≤ trunc x ∧ trunc x ≤ 100) ↔ (-1 < x ∧ x < 101) := by
  unfold trunc
  split_ifs with hx
  · constructor
    · rintro ⟨_, h⟩
      refine ⟨by linarith, ?_⟩
      have h2 : ⌊x⌋ < 101 := by omega
      have := Int.floor_lt.mp h2
      simpa using this
    · rintro ⟨_, h⟩
      refine ⟨Int.floor_nonneg.mpr hx, ?_⟩
      have h2 : ⌊x⌋ < 101 := Int.floor_lt.mpr (by simpa using h)
      omega
  · push_neg at hx
    have hc : ⌈x⌉ ≤ 0 := Int.ceil_le.mpr (by simpa using hx.le)
    constructor
    · rintro ⟨h, _⟩
      have h2 : (-1 : Int) < ⌈x⌉ := by omega
      have := Int.lt_ceil.mp h2
      exact ⟨by simpa using this, by linarith⟩
    · rintro ⟨h, _⟩
      have h2 : (-1 : Int) < ⌈x⌉ := Int.lt_ceil.mpr (by simpa using h)
      omega

/-- The `-t` arguments whose percentage passes the range check are 58..116. -/
theorem setpoint_percent_range (n : Int) :
    (0 ≤ setpoint_percent n ∧ setpoint_percent n ≤ 100) ↔ (58 ≤ n ∧ n ≤ 116) := by
  unfold setpoint_percent setpoint_value
  rw [double_to_int_range, trunc_range]
  constructor
  · rintro ⟨h1, h2⟩
    have a : (57 : ℚ) < n := by linarith
    have b : (n : ℚ) < 117 := by linarith
    have a1 : (57 : Int) < n := by exact_mod_cast a
    have b1 : n < (117 : Int) := by exact_mod_cast b
    omega
  · rintro ⟨h1, h2⟩
    have a : (58 : ℚ) ≤ n := by exact_mod_cast h1
    have b : (n : ℚ) ≤ 116 := by exact_mod_cast h2
    constructor <;> linarith

theorem setpoint_percent_58 : setpoint_percent 58 = 0 := by
  have h : trunc (setpoint_value 58) = 0 := by
    unfold trunc setpoint_value
    rw [if_neg (by norm_num), Int.ceil_eq_iff]
    norm_num
  rw [setpoint_percent, h]
  decide

theorem setpoint_percent_60 : setpoint_percent 60 = 2 := by
  norm_num [setpoint_percent, setpoint_value, trunc, double_to_int, INT_MIN, INT_MAX]

theorem setpoint_percent_85 : setpoint_percent 85 = 46 := by
  norm_num [setpoint_percent, setpoint_value, trunc, double_to_int, INT_MIN, INT_MAX]

theorem setpoint_percent_117 : setpoint_percent 117 = 101 := by
  norm_num [setpoint_percent, setpoint_value, trunc, double_to_int, INT_MIN, INT_MAX]

theorem spec_setpoint_58 : spec_setpoint 58 = -1 := by
  norm_num [spec_setpoint, setpoint_value]

/-! ### Projections of the run-time helpers -/

@[simp] theorem invoke_reply (T : Transport) (s : St) (c : Call) :
    (invoke T s c).1 = T s.calls c := rfl

@[simp] theorem invoke_calls (T : Transport) (s : St) (c : Call) :
    (invoke T s c).2.calls = s.calls ++ [c] := rfl

@[simp] theorem invoke_out (T : Transport) (s : St) (c : Call) :
    (invoke T s c).2.out = s.out := rfl

@[simp] theorem invoke_overruns (T : Transport) (s : St) (c : Call) :
    (invoke T s c).2.overruns = s.overruns := rfl

@[simp] theorem emit_calls (s : St) (t : String) (v : List Val) : (emit s t v).calls = s.calls := rfl

@[simp] theorem emit_out (s : St) (t : String) (v : List Val) :
    (emit s t v).out = s.out ++ [{ text := t, vals := v }] := rfl

@[simp] theorem emit_overruns (s : St) (t : String) (v : List Val) :
    (emit s t v).overruns = s.overruns := rfl

@[simp] theorem print_regs_calls (s : St) (b : Buf) : (print_regs s b).calls = s.calls := rfl

@[simp] theorem print_regs_overruns (s : St) (b : Buf) :
    (print_regs s b).overruns = s.overruns := rfl

@[simp] theorem read_into_ret (T : Transport) (s : St) (c : Call) (nb : Nat) (d : Buf) :
    (read_into T s c nb d).1 = (T s.calls c).ret := rfl

@[simp] theorem read_into_calls (T : Transport) (s : St) (c : Call) (nb : Nat) (d : Buf) :
    (read_into T s c nb d).2.2.calls = s.calls ++ [c] := by
  unfold read_into
  simp only
  split_ifs <;> rfl

@[simp] theorem read_into_out (T : Transport) (s : St) (c : Call) (nb : Nat) (d : Buf) :
    (read_into T s c nb d).2.2.out = s.out := by
  unfold read_into
  simp only
  split_ifs <;> rfl

@[simp] theorem read_into_overruns (T : Transport) (s : St) (c : Call) (nb : Nat) (d : Buf) :
    (read_into T s c nb d).2.2.overruns =
      if d.decl < nb then s.overruns ++ [(d.decl, nb)] else s.overruns := by
  unfold read_into
  simp only
  split_ifs <;> rfl

@[simp] theorem read_into_decl (T : Transport) (s : St) (c : Call) (nb : Nat) (d : Buf) :
    (read_into T s c nb d).2.1.decl = d.decl := rfl

@[simp] theorem read_into_cells (T : Transport) (s : St) (c : Call) (nb : Nat) (d : Buf) :
    (read_into T s c nb d).2.1.cells =
      (List.range (min (min (T s.calls c).ret.toNat nb) d.decl)).map
        fun k => toInt16 ((T s.calls c).data k) := rfl

@[simp] theorem out_label_status (T : Transport) (s : St) (e : Int) :
    (out_label T s e).status = e := rfl

@[simp] theorem out_label_calls (T : Transport) (s : St) (e : Int) :
    (out_label T s e).calls = s.calls ++ [.close, .free] := by
  simp [out_label]

@[simp] theorem out_label_out (T : Transport) (s : St) (e : Int) :
    (out_label T s e).out = s.out := rfl

@[simp] theorem out_label_overruns (T : Transport) (s : St) (e : Int) :
    (out_label T s e).overruns = s.overruns := rfl

/-! ### The option loop of `change_sp` -/

theorem change_sp_case_t (cfg : SpConfig) (n : Int) :
    change_sp_case cfg (.t n) =
      if setpoint_percent n > 100 ∨ setpoint_percent n < 0 then .error 1
      else .ok { cfg with sp := setpoint_percent n, spt := some n } := rfl

theorem change_sp_case_error (cfg : SpConfig) (o : Opt) (e : Int)
    (h : change_sp_case cfg o = .error e) : e = 1 := by
  cases o with
  | t n =>
    rw [change_sp_case_t] at h
    split_ifs at h
    simp at h
    exact h.symm
  | _ => simp [change_sp_case] at h <;> exact h.symm

theorem change_sp_getopt_error (argv : List Opt) (cfg : SpConfig) (e : Int)
    (h : change_sp_getopt cfg argv = .error e) : e = 1 := by
  induction argv generalizing cfg with
  | nil => simp [change_sp_getopt] at h
  | cons o rest ih =>
    unfold change_sp_getopt at h
    cases hc : change_sp_case cfg o with
    | error e1 =>
      rw [hc] at h
      simp at h
      exact change_sp_case_error cfg o e (h ▸ hc)
    | ok cfg1 =>
      rw [hc] at h
      exact ih cfg1 h

theorem change_sp_case_sp (cfg cfg1 : SpConfig) (o : Opt)
    (h : change_sp_case cfg o = .ok cfg1) (hs : 0 ≤ cfg.sp ∧ cfg.sp ≤ 100) :
    0 ≤ cfg1.sp ∧ cfg1.sp ≤ 100 := by
  cases o with
  | t n =>
    rw [change_sp_case_t] at h
    split_ifs at h with hr
    simp at h
    subst h
    simp only
    omega
  | _ => simp [change_sp_case] at h <;> (rw [← h]; exact hs)

theorem change_sp_getopt_sp (argv : List Opt) (cfg cfg1 : SpConfig)
    (h : change_sp_getopt cfg argv = .ok cfg1) (hs : 0 ≤ cfg.sp ∧ cfg.sp ≤ 100) :
    0 ≤ cfg1.sp ∧ cfg1.sp ≤ 100 := by
  induction argv generalizing cfg with
  | nil =>
    simp [change_sp_getopt] at h
    rw [← h]; exact hs
  | cons o rest ih =>
    unfold change_sp_getopt at h
    cases hc : change_sp_case cfg o with
    | error e1 => rw [hc] at h; simp at h
    | ok cfg2 =>
      rw [hc] at h
      exact ih cfg2 h (change_sp_case_sp cfg cfg2 o hc hs)

theorem change_sp_getopt_bad_t (argv : List Opt) (cfg : SpConfig) (n : Int)
    (hn : Opt.t n ∈ argv) (hb : setpoint_percent n < 0 ∨ 100 < setpoint_percent n) :
    change_sp_getopt cfg argv = .error 1 := by
  induction argv generalizing cfg with
  | nil => simp at hn
  | cons o rest ih =>
    unfold change_sp_getopt
    cases hc : change_sp_case cfg o with
    | error e1 =>
      have := change_sp_case_error cfg o e1 hc
      simp [this]
    | ok cfg2 =>
      simp only
      rcases List.mem_cons.mp hn with h1 | h1
      · subst h1
        rw [change_sp_case_t] at hc
        split_ifs at hc with hr
        exact absurd (by omega) hr
      · exact ih cfg2 h1

theorem change_sp_options_error (argv : List Opt) (e : Int)
    (h : change_sp_options argv = .error e) : e = 1 := by
  unfold change_sp_options at h
  cases hc : change_sp_getopt {} argv with
  | error e1 =>
    rw [hc] at h
    simp at h
    exact change_sp_getopt_error argv {} e (h ▸ hc)
  | ok cfg =>
    rw [hc] at h
    simp only at h
    split_ifs at h <;> simp at h <;> exact h.symm

theorem change_sp_options_ok (argv : List Opt) (cfg : SpConfig)
    (h : change_sp_options argv = .ok cfg) :
    change_sp_getopt {} argv = .ok cfg ∧ ((cfg.ipaddr = []) ↔ ¬ (cfg.serport = [])) := by
  unfold change_sp_options at h
  cases hc : change_sp_getopt {} argv with
  | error e1 => rw [hc] at h; simp at h
  | ok cfg1 =>
    rw [hc] at h
    simp only at h
    split_ifs at h with h1 h2
    simp at h
    subst h
    refine ⟨rfl, ?_⟩
    tauto

/-! ### Sessions as fail-stop executions -/

theorem script_spec (T : Transport) (steps : List Call) (h : List Call) :
    ((script T h steps).2 = 0 ∧ (script T h steps).1 = h ++ steps ++ [.close, .free] ∧
        ∀ k c, steps[k]? = some c → ¬ failed c (T (h ++ steps.take k) c)) ∨
    ((script T h steps).2 = 1 ∧ ∃ k c, steps[k]? = some c ∧
        (script T h steps).1 = h ++ steps.take (k + 1) ++ [.close, .free] ∧
        failed c (T (h ++ steps.take k) c) ∧
        ∀ j d, j < k → steps[j]? = some d → ¬ failed d (T (h ++ steps.take j) d)) := by
  induction steps generalizing h with
  | nil =>
    left
    simp [script]
  | cons c0 rest ih =>
    by_cases hf : failed c0 (T h c0)
    · right
      refine ⟨by simp [script, hf], 0, c0, by simp, by simp [script, hf], by simpa using hf, ?_⟩
      intro j d hj
      omega
    · have e : script T h (c0 :: rest) = script T (h ++ [c0]) rest := by simp [script, hf]
      rw [e]
      rcases ih (h ++ [c0]) with ⟨h1, h2, h3⟩ | ⟨h1, k, c, hk, h2, h3, h4⟩
      · left
        refine ⟨h1, by simpa using h2, ?_⟩
        intro k c hk
        cases k with
        | zero =>
          simp at hk
          subst hk
          simpa using hf
        | succ k1 =>
          simp at hk
          have := h3 k1 c hk
          simpa using this
      · right
        refine ⟨h1, k + 1, c, by simpa using hk, by simpa using h2, by simpa using h3, ?_⟩
        intro j d hj hd
        cases j with
        | zero =>
          simp at hd
          subst hd
          simpa using hf
        | succ j1 =>
          simp at hd
          have := h4 j1 d (by omega) hd
          simpa using this

theorem failStop_of_script (T : Transport) (plan : List Call) (r : Run)
    (h : (r.calls, r.status) = script T [] plan) : FailStop T plan r := by
  have e1 : r.calls = (script T [] plan).1 := by rw [← h]
  have e2 : r.status = (script T [] plan).2 := by rw [← h]
  have := script_spec T plan []
  simp only [List.nil_append] at this
  unfold FailStop
  rw [e1, e2]
  exact this

set_option maxHeartbeats 4000000 in
theorem change_sp_session_script (T : Transport) (cfg : SpConfig) :
    ((change_sp_session T cfg).calls, (change_sp_session T cfg).status) =
      script T [] (change_sp_plan cfg) := by
  by_cases hip : cfg.ipaddr = [] <;>
  simp only [change_sp_session, change_sp_plan, script, failed, apply_ite Run.calls,
    apply_ite Run.status, out_label_calls, out_label_status, invoke_calls, invoke_reply,
    emit_calls, print_regs_calls, read_into_calls, read_into_ret, hip, ne_eq, not_true_eq_false,
    not_false_eq_true, if_true, if_false, List.nil_append, List.cons_append, Nat.cast_ofNat] <;>
  split_ifs <;> rfl

set_option maxHeartbeats 4000000 in
theorem graphic_session_script (T : Transport) (cfg : Config) :
    ((graphic_session T cfg).calls, (graphic_session T cfg).status) =
      script T [] (graphic_plan cfg) := by
  by_cases hip : cfg.ipaddr = [] <;>
  simp only [graphic_session, graphic_plan, script, failed, apply_ite Run.calls,
    apply_ite Run.status, out_label_calls, out_label_status, invoke_calls, invoke_reply,
    emit_calls, print_regs_calls, read_into_calls, read_into_ret, hip, ne_eq, not_true_eq_false,
    not_false_eq_true, if_true, if_false, List.nil_append, List.cons_append, Nat.cast_ofNat] <;>
  split_ifs <;> rfl

set_option maxHeartbeats 4000000 in
theorem tt_status_ro_session_script (T : Transport) (cfg : Config) :
    ((tt_status_ro_session T cfg).calls, (tt_status_ro_session T cfg).status) =
      script T [] (tt_status_ro_plan cfg) := by
  by_cases hip : cfg.ipaddr = [] <;>
  simp only [tt_status_ro_session, tt_status_ro_plan, script, failed, apply_ite Run.calls,
    apply_ite Run.status, out_label_calls, out_label_status, invoke_calls, invoke_reply,
    emit_calls, print_regs_calls, read_into_calls, read_into_ret, hip, ne_eq, not_true_eq_false,
    not_false_eq_true, if_true, if_false, List.nil_append, List.cons_append, Nat.cast_ofNat] <;>
  split_ifs <;> rfl

theorem mem_of_failStop (T : Transport) (plan : List Call) (r : Run) (c : Call)
    (h : FailStop T plan r) (hc : c ∈ r.calls) : c ∈ plan ∨ c = .close ∨ c = .free := by
  rcases h with ⟨_, h2, _⟩ | ⟨_, k, d, _, h2, _⟩
  · rw [h2] at hc
    simpa using hc
  · rw [h2] at hc
    simp only [List.mem_append, List.mem_cons, List.mem_singleton, List.not_mem_nil,
      or_false] at hc
    rcases hc with hc | hc
    · exact Or.inl (List.mem_of_mem_take hc)
    · exact Or.inr hc

theorem change_sp_session_failStop (T : Transport) (cfg : SpConfig) :
    FailStop T (change_sp_plan cfg) (change_sp_session T cfg) :=
  failStop_of_script T _ _ (change_sp_session_script T cfg)

theorem graphic_session_failStop (T : Transport) (cfg : Config) :
    FailStop T (graphic_plan cfg) (graphic_session T cfg) :=
  failStop_of_script T _ _ (graphic_session_script T cfg)

theorem tt_status_ro_session_failStop (T : Transport) (cfg : Config) :
    FailStop T (tt_status_ro_plan cfg) (tt_status_ro_session T cfg) :=
  failStop_of_script T _ _ (tt_status_ro_session_script T cfg)

/-- The only write to register 0x40002 a session issues carries `cfg.sp`. -/
theorem change_sp_session_setpoint_write (T : Transport) (cfg : SpConfig) (v : Int)
    (h : Call.write_register 0x40002 v ∈ (change_sp_session T cfg).calls) : v = cfg.sp := by
  rcases mem_of_failStop T _ _ _ (change_sp_session_failStop T cfg) h with h1 | h1 | h1
  · simp only [change_sp_plan] at h1
    split_ifs at h1 <;> simpa using h1
  · simp at h1
  · simp at h1

theorem change_sp_main_error (T : Transport) (argv : List Opt) (e : Int)
    (h : change_sp_options argv = .error e) : change_sp_main T argv = exit_with 1 := by
  have := change_sp_options_error argv e h
  subst this
  simp [change_sp_main, h]

theorem change_sp_main_ok (T : Transport) (argv : List Opt) (cfg : SpConfig)
    (h : change_sp_options argv = .ok cfg) : change_sp_main T argv = change_sp_session T cfg := by
  simp [change_sp_main, h]

/-! ### The setpoint of `change_sp` (C1, C2, C5, C6) -/

/-- C1: in `change_sp`, whatever the command line and the transport do, a
write to the setpoint register 0x40002 carries a value in [0,100]; and when
some `-t` argument yields a percentage below 0 or above 100 the program exits
with status 1 without having made any transport call. -/
theorem change_sp_setpoint_write_in_range (T : Transport) (argv : List Opt) :
    (∀ v, Call.write_register 0x40002 v ∈ (change_sp_main T argv).calls → 0 ≤ v ∧ v ≤ 100) ∧
    (∀ n, Opt.t n ∈ argv → (setpoint_percent n < 0 ∨ 100 < setpoint_percent n) →
      (change_sp_main T argv).status = 1 ∧ (change_sp_main T argv).calls = []) := by
  constructor
  · intro v hv
    cases ho : change_sp_options argv with
    | error e =>
      rw [change_sp_main_error T argv e ho] at hv
      simp [exit_with] at hv
    | ok cfg =>
      rw [change_sp_main_ok T argv cfg ho] at hv
      have hsp := change_sp_session_setpoint_write T cfg v hv
      have hg := (change_sp_options_ok argv cfg ho).1
      have := change_sp_getopt_sp argv {} cfg hg (by decide)
      rw [hsp]
      exact this
  · intro n hn hb
    have hg := change_sp_getopt_bad_t argv {} n hn hb
    have ho : change_sp_options argv = .error 1 := by
      simp [change_sp_options, hg]
    rw [change_sp_main_error T argv 1 ho]
    simp [exit_with]

theorem change_sp_run_t85 :
    (change_sp_main (boiler [] []) [.i "10.0.0.5".toList, .t 85]).calls =
      [.new_tcp "10.0.0.5".toList 502, .set_slave 1, .connect, .read_registers 0x40000 7,
       .write_register 0x40000 4, .write_register 0x40002 46, .read_registers 0x40000 7,
       .close, .free] := by
  simp [change_sp_main, change_sp_options, change_sp_getopt, change_sp_case_t, change_sp_case,
    setpoint_percent_85, strncpy, nul_at, change_sp_session, boiler]

theorem change_sp_setpoint_write_in_range_witness :
    Call.write_register 0x40002 46 ∈
        (change_sp_main (boiler [] []) [.i "10.0.0.5".toList, .t 85]).calls ∧
      ((0 : Int) ≤ 46 ∧ (46 : Int) ≤ 100) :=
  ⟨by rw [change_sp_run_t85]; decide,
   (change_sp_setpoint_write_in_range (boiler [] []) [.i "10.0.0.5".toList, .t 85]).1 46
     (by rw [change_sp_run_t85]; decide)⟩

theorem trunc_of_nonneg (x : ℚ) (h : 0 ≤ x) : trunc x = ⌊x⌋ := by
  simp [trunc, h]

theorem trunc_of_small_neg (x : ℚ) (h1 : -1 < x) (h2 : x < 0) : trunc x = 0 := by
  have h := (trunc_range x).mpr ⟨h1, by linarith⟩
  have hc : trunc x ≤ 0 := by
    unfold trunc
    rw [if_neg (by linarith)]
    exact Int.ceil_le.mpr (by simpa using h2.le)
  omega

/-- C2, counterexample: for `-t 58` the value under `trunc` is about -0.78;
the program stores 0 and accepts the argument, while the floor is -1, which
lies outside [0,100]. -/
theorem setpoint_floor_counterexample :
    setpoint_percent 58 = 0 ∧ spec_setpoint 58 = -1 ∧
      setpoint_percent 58 ≠ spec_setpoint 58 ∧
      change_sp_case {} (.t 58) = .ok { sp := 0, spt := some 58 } := by
  refine ⟨setpoint_percent_58, spec_setpoint_58, ?_, ?_⟩
  · rw [setpoint_percent_58, spec_setpoint_58]; decide
  · rw [change_sp_case_t, setpoint_percent_58]; rfl

/-- C2, amended: for every integer `-t` argument `n` the program rejects the
argument (exit status 1) exactly when the value `-101.4856 + 1.7363171 * n`
truncated toward zero is outside [0,100], that is when the value is at most -1
or at least 101; otherwise it stores the truncated value in `sp`, which is the
floor for a non-negative value and 0 for a value between -1 and 0. -/
theorem change_sp_t_truncates (cfg : SpConfig) (n : Int) :
    (change_sp_case cfg (.t n) = .error 1 ↔
        (trunc (setpoint_value n) < 0 ∨ 100 < trunc (setpoint_value n))) ∧
    (change_sp_case cfg (.t n) = .error 1 ↔
        (setpoint_value n ≤ -1 ∨ 101 ≤ setpoint_value n)) ∧
    (¬ (trunc (setpoint_value n) < 0 ∨ 100 < trunc (setpoint_value n)) →
        change_sp_case cfg (.t n) =
          .ok { cfg with sp := trunc (setpoint_value n), spt := some n }) ∧
    (0 ≤ setpoint_value n → trunc (setpoint_value n) = spec_setpoint n) ∧
    (-1 < setpoint_value n → setpoint_value n < 0 → trunc (setpoint_value n) = 0) := by
  have hr := double_to_int_range (trunc (setpoint_value n))
  have ht := trunc_range (setpoint_value n)
  have key : change_sp_case cfg (.t n) = .error 1 ↔
      (trunc (setpoint_value n) < 0 ∨ 100 < trunc (setpoint_value n)) := by
    rw [change_sp_case_t]
    unfold setpoint_percent at *
    split_ifs with hc
    · simp only [true_iff]
      by_contra hn
      have : 0 ≤ trunc (setpoint_value n) ∧ trunc (setpoint_value n) ≤ 100 := by omega
      have := hr.mpr this
      omega
    · simp only [reduceCtorEq, false_iff]
      have : 0 ≤ double_to_int (trunc (setpoint_value n)) ∧
          double_to_int (trunc (setpoint_value n)) ≤ 100 := by omega
      have := hr.mp this
      omega
  refine ⟨key, ?_, ?_, ?_, ?_⟩
  · rw [key]
    constructor
    · intro h
      by_contra hn
      push_neg at hn
      have := ht.mpr hn
      omega
    · intro h
      by_contra hn
      have : 0 ≤ trunc (setpoint_value n) ∧ trunc (setpoint_value n) ≤ 100 := by omega
      have := ht.mp this
      rcases h with h | h <;> linarith
  · intro hn
    have hin : 0 ≤ trunc (setpoint_value n) ∧ trunc (setpoint_value n) ≤ 100 := by omega
    have hd := double_to_int_of_fits _ hin.1 hin.2
    rw [change_sp_case_t]
    unfold setpoint_percent
    rw [hd, if_neg (by omega)]
  · intro h
    exact trunc_of_nonneg _ h
  · intro h1 h2
    exact trunc_of_small_neg _ h1 h2

theorem trunc_setpoint_value_85 : trunc (setpoint_value 85) = 46 := by
  norm_num [setpoint_value, trunc]

theorem change_sp_t_truncates_witness :
    change_sp_case {} (.t 85) = .ok { sp := 46, spt := some 85 } := by
  have h := (change_sp_t_truncates {} 85).2.2.1 (by rw [trunc_setpoint_value_85]; decide)
  rw [trunc_setpoint_value_85] at h
  exact h

theorem change_sp_run_default :
    (change_sp_main (boiler [] []) [.i "10.0.0.5".toList]).calls =
      [.new_tcp "10.0.0.5".toList 502, .set_slave 1, .connect, .read_registers 0x40000 7,
       .write_register 0x40000 4, .write_register 0x40002 85, .read_registers 0x40000 7,
       .close, .free] := by
  simp [change_sp_main, change_sp_options, change_sp_getopt, change_sp_case,
    strncpy, nul_at, change_sp_session, boiler]

/-- C5, evaluation at the failing input: on a boiler that accepts every
operation, `change_sp -i 10.0.0.5` writes 85 to register 0x40002 while
`change_sp -i 10.0.0.5 -t 85` writes 46. -/
theorem change_sp_default_differs_from_t85 :
    (change_sp_main (boiler [] []) [.i "10.0.0.5".toList]).calls =
      [.new_tcp "10.0.0.5".toList 502, .set_slave 1, .connect, .read_registers 0x40000 7,
       .write_register 0x40000 4, .write_register 0x40002 85, .read_registers 0x40000 7,
       .close, .free] ∧
    (change_sp_main (boiler [] []) [.i "10.0.0.5".toList, .t 85]).calls =
      [.new_tcp "10.0.0.5".toList 502, .set_slave 1, .connect, .read_registers 0x40000 7,
       .write_register 0x40000 4, .write_register 0x40002 46, .read_registers 0x40000 7,
       .close, .free] :=
  ⟨change_sp_run_default, change_sp_run_t85⟩

/-- C6, evaluation at the failing input: `-t 60` is accepted and stored as 2
percent; in general a `-t` argument passes the check exactly when it lies in
58..116, not 70..110. -/
theorem change_sp_accepts_58_to_116 :
    change_sp_case {} (.t 60) = .ok { sp := 2, spt := some 60 } ∧
    ∀ (cfg : SpConfig) (n : Int),
      (∃ cfg1, change_sp_case cfg (.t n) = .ok cfg1) ↔ (58 ≤ n ∧ n ≤ 116) := by
  constructor
  · rw [change_sp_case_t, setpoint_percent_60]; rfl
  · intro cfg n
    rw [change_sp_case_t, ← setpoint_percent_range]
    split_ifs with hc
    · simp only [reduceCtorEq, exists_false, false_iff]
      omega
    · simp only [Except.ok.injEq, exists_eq', true_iff]
      omega

/-! ### Order of the register operations (C9) -/

theorem failStop_all_ok (T : Transport) (plan : List Call) (r : Run) (h : FailStop T plan r)
    (hall : ∀ k c, r.calls[k]? = some c → ¬ failed c (T (r.calls.take k) c)) :
    r.status = 0 ∧ r.calls = plan ++ [.close, .free] := by
  rcases h with ⟨h1, h2, _⟩ | ⟨_, k, c, hk, h2, h3, _⟩
  · exact ⟨h1, h2⟩
  · exfalso
    have hlt : k < plan.length := by
      rcases List.getElem?_eq_some_iff.mp hk with ⟨hl, _⟩
      exact hl
    have hlen : (plan.take (k + 1)).length = k + 1 := by
      rw [List.length_take]; omega
    have e1 : r.calls[k]? = some c := by
      rw [h2, List.getElem?_append_left (by omega), List.getElem?_take_of_lt (by omega), hk]
    have e2 : r.calls.take k = plan.take k := by
      rw [h2, List.take_append_of_le_length (by omega), List.take_take]
      congr 1
      omega
    exact hall k c e1 (e2 ▸ h3)

theorem index_in_prefix (plan calls : List Call) (n k : Nat) (w : Call)
    (hn : n ≤ plan.length) (hc : calls = plan.take n ++ [.close, .free])
    (hwc : w ≠ .close) (hwf : w ≠ .free) (hk : calls[k]? = some w) :
    k < n ∧ plan[k]? = some w ∧ calls.take k = plan.take k := by
  have hlen : (plan.take n).length = n := by
    rw [List.length_take]; omega
  by_cases hkn : k < n
  · refine ⟨hkn, ?_, ?_⟩
    · rw [hc, List.getElem?_append_left (by omega), List.getElem?_take_of_lt hkn] at hk
      exact hk
    · rw [hc, List.take_append_of_le_length (by omega), List.take_take]
      congr 1
      omega
  · exfalso
    rw [hc, List.getElem?_append_right (by omega), hlen] at hk
    rcases hd : k - n with _ | _ | m
    · rw [hd] at hk; simp at hk; exact hwc hk.symm
    · rw [hd] at hk; simp at hk; exact hwf hk.symm
    · rw [hd] at hk; simp at hk

/-- When the call `w`, which the plan holds at index `i` only, is issued and
fails, the run ends right after it. -/
theorem failStop_stops_at (T : Transport) (plan : List Call) (r : Run) (h : FailStop T plan r)
    (w : Call) (i : Nat) (hw : ∀ m, plan[m]? = some w → m = i)
    (hwc : w ≠ .close) (hwf : w ≠ .free)
    (k : Nat) (hk : r.calls[k]? = some w) (hf : failed w (T (r.calls.take k) w)) :
    r.calls = plan.take (i + 1) ++ [.close, .free] := by
  rcases h with ⟨_, h2, h3⟩ | ⟨_, j, c, hj, h2, _, h4⟩
  · exfalso
    have h2' : r.calls = plan.take plan.length ++ [.close, .free] := by
      rw [List.take_length]; exact h2
    obtain ⟨_, e1, e2⟩ := index_in_prefix plan r.calls plan.length k w le_rfl h2' hwc hwf hk
    exact h3 k w e1 (e2 ▸ hf)
  · have hlt : j < plan.length := by
      rcases List.getElem?_eq_some_iff.mp hj with ⟨hl, _⟩
      exact hl
    obtain ⟨e0, e1, e2⟩ := index_in_prefix plan r.calls (j + 1) k w (by omega) h2 hwc hwf hk
    have hki := hw k e1
    subst hki
    by_cases hkj : k < j
    · exact absurd (e2 ▸ hf) (h4 k w hkj e1)
    · have : k = j := by omega
      subst this
      exact h2

/-- C9: in `change_sp`, when every transport operation of the run succeeds the
register operations issued are, in order, read 7 holding registers at
0x40000, write 4 to 0x40000, write `sp` to 0x40002, read 7 holding registers
at 0x40000 (and the status is 0); and when the write of the enable code is
issued and returns anything other than 1, no write to 0x40002 is issued. -/
theorem change_sp_register_sequence (T : Transport) (argv : List Opt) (cfg : SpConfig)
    (hv : change_sp_options argv = .ok cfg) :
    ((∀ k c, (change_sp_main T argv).calls[k]? = some c →
          ¬ failed c (T ((change_sp_main T argv).calls.take k) c)) →
        (change_sp_main T argv).calls.filter Call.is_register_op =
          [.read_registers 0x40000 7, .write_register 0x40000 4,
           .write_register 0x40002 cfg.sp, .read_registers 0x40000 7] ∧
        (change_sp_main T argv).status = 0) ∧
    (∀ k, (change_sp_main T argv).calls[k]? = some (.write_register 0x40000 4) →
        (T ((change_sp_main T argv).calls.take k) (.write_register 0x40000 4)).ret ≠ 1 →
        ∀ v, Call.write_register 0x40002 v ∉ (change_sp_main T argv).calls) := by
  rw [change_sp_main_ok T argv cfg hv]
  have hfs := change_sp_session_failStop T cfg
  constructor
  · intro hall
    obtain ⟨h1, h2⟩ := failStop_all_ok T _ _ hfs hall
    refine ⟨?_, h1⟩
    rw [h2]
    by_cases hip : cfg.ipaddr = [] <;> simp [change_sp_plan, hip, Call.is_register_op, List.filter]
  · intro k hk hr v
    have huniq : ∀ m, (change_sp_plan cfg)[m]? = some (Call.write_register 0x40000 4) → m = 4 := by
      intro m hm
      by_cases hip : cfg.ipaddr = [] <;>
        (rcases m with _|_|_|_|_|_|_|m <;> simp [change_sp_plan, hip] at hm ⊢)
    have hc := failStop_stops_at T _ _ hfs (.write_register 0x40000 4) 4 huniq
      (by simp) (by simp) k hk (by simpa [failed] using hr)
    rw [hc]
    by_cases hip : cfg.ipaddr = [] <;> simp [change_sp_plan, hip]

theorem change_sp_options_i_t85 :
    change_sp_options [.i "10.0.0.5".toList, .t 85] =
      .ok { sp := 46, spt := some 85, ipaddr := "10.0.0.5".toList } := by
  simp [change_sp_options, change_sp_getopt, change_sp_case_t, change_sp_case,
    setpoint_percent_85, strncpy, nul_at]

theorem change_sp_register_sequence_witness :
    (change_sp_main (boiler [] []) [.i "10.0.0.5".toList, .t 85]).calls.filter
        Call.is_register_op =
      [.read_registers 0x40000 7, .write_register 0x40000 4,
       .write_register 0x40002 46, .read_registers 0x40000 7] ∧
    (change_sp_main (boiler [] []) [.i "10.0.0.5".toList, .t 85]).status = 0 :=
  (change_sp_register_sequence (boiler [] []) [.i "10.0.0.5".toList, .t 85] _
    change_sp_options_i_t85).1 (by
      rw [change_sp_run_t85]
      intro k c hk
      rcases k with _|_|_|_|_|_|_|_|_|k <;> simp at hk <;> subst hk <;> simp [failed, boiler])

/-! ### Failure handling (C8) -/

theorem failStop_cleanup_once (T : Transport) (plan : List Call) (r : Run)
    (h : FailStop T plan r) (hc : Call.close ∉ plan) (hf : Call.free ∉ plan) :
    r.calls.count .close = 1 ∧ r.calls.count .free = 1 := by
  have key : ∀ n, (plan.take n ++ [Call.close, Call.free]).count .close = 1 ∧
      (plan.take n ++ [Call.close, Call.free]).count .free = 1 := by
    intro n
    have h1 : Call.close ∉ plan.take n := fun hm => hc (List.mem_of_mem_take hm)
    have h2 : Call.free ∉ plan.take n := fun hm => hf (List.mem_of_mem_take hm)
    rw [List.count_append, List.count_append, List.count_eq_zero_of_not_mem h1,
      List.count_eq_zero_of_not_mem h2]
    decide
  rcases h with ⟨_, h2, _⟩ | ⟨_, k, c, _, h2, _⟩
  · have := key plan.length
    rw [List.take_length] at this
    rw [h2]; exact this
  · rw [h2]; exact key (k + 1)

theorem change_sp_plan_no_cleanup (cfg : SpConfig) :
    Call.close ∉ change_sp_plan cfg ∧ Call.free ∉ change_sp_plan cfg := by
  by_cases hip : cfg.ipaddr = [] <;> simp [change_sp_plan, hip]

theorem graphic_plan_no_cleanup (cfg : Config) :
    Call.close ∉ graphic_plan cfg ∧ Call.free ∉ graphic_plan cfg := by
  by_cases hip : cfg.ipaddr = [] <;> simp [graphic_plan, hip]

theorem tt_status_ro_plan_no_cleanup (cfg : Config) :
    Call.close ∉ tt_status_ro_plan cfg ∧ Call.free ∉ tt_status_ro_plan cfg := by
  by_cases hip : cfg.ipaddr = [] <;> simp [tt_status_ro_plan, hip]

theorem graphic_main_ok (T : Transport) (argv : List Opt) (cfg : Config)
    (h : status_options argv = .ok cfg) : graphic_main T argv = graphic_session T cfg := by
  simp [graphic_main, h]

theorem tt_status_ro_main_ok (T : Transport) (argv : List Opt) (cfg : Config)
    (h : status_options argv = .ok cfg) :
    tt_status_ro_main T argv = tt_status_ro_session T cfg := by
  simp [tt_status_ro_main, h]

/-- C8: in each of the three programs, a run that passes option validation
is the fail-stop execution of the program's plan of calls: the calls are
issued in order; at the first call that fails (NULL context, non-zero
set-slave or connect, read count other than requested, write count other than
1) nothing further is issued except `close` and `free`, and the status is 1;
the status is 0 only when every call of the plan was issued and succeeded;
`close` and `free` are called exactly once each. -/
theorem fail_stop_in_every_variant (T : Transport) (argv : List Opt) :
    (∀ cfg, change_sp_options argv = .ok cfg →
        FailStop T (change_sp_plan cfg) (change_sp_main T argv) ∧
        (change_sp_main T argv).calls.count .close = 1 ∧
        (change_sp_main T argv).calls.count .free = 1) ∧
    (∀ cfg, status_options argv = .ok cfg →
        FailStop T (graphic_plan cfg) (graphic_main T argv) ∧
        (graphic_main T argv).calls.count .close = 1 ∧
        (graphic_main T argv).calls.count .free = 1) ∧
    (∀ cfg, status_options argv = .ok cfg →
        FailStop T (tt_status_ro_plan cfg) (tt_status_ro_main T argv) ∧
        (tt_status_ro_main T argv).calls.count .close = 1 ∧
        (tt_status_ro_main T argv).calls.count .free = 1) := by
  refine ⟨?_, ?_, ?_⟩
  · intro cfg hv
    rw [change_sp_main_ok T argv cfg hv]
    have h := change_sp_session_failStop T cfg
    exact ⟨h, failStop_cleanup_once T _ _ h (change_sp_plan_no_cleanup cfg).1
      (change_sp_plan_no_cleanup cfg).2⟩
  · intro cfg hv
    rw [graphic_main_ok T argv cfg hv]
    have h := graphic_session_failStop T cfg
    exact ⟨h, failStop_cleanup_once T _ _ h (graphic_plan_no_cleanup cfg).1
      (graphic_plan_no_cleanup cfg).2⟩
  · intro cfg hv
    rw [tt_status_ro_main_ok T argv cfg hv]
    have h := tt_status_ro_session_failStop T cfg
    exact ⟨h, failStop_cleanup_once T _ _ h (tt_status_ro_plan_no_cleanup cfg).1
      (tt_status_ro_plan_no_cleanup cfg).2⟩

theorem status_options_i :
    status_options [.i "10.0.0.5".toList] = .ok { ipaddr := "10.0.0.5".toList } := by
  simp [status_options, status_getopt, status_case, strncpy, nul_at]

/-- A failed connect is followed by no register read. -/
theorem graphic_run_no_connect :
    (graphic_main no_connect [.i "10.0.0.5".toList]).calls =
        [.new_tcp "10.0.0.5".toList 502, .set_slave 1, .connect, .close, .free] ∧
      (graphic_main no_connect [.i "10.0.0.5".toList]).status = 1 := by
  rw [graphic_main_ok _ _ _ status_options_i]
  simp [graphic_session, no_connect, boiler]

/-- A read of 5 of 7 registers is followed by no further read. -/
theorem graphic_run_short_read :
    (graphic_main short_read [.i "10.0.0.5".toList]).calls =
        [.new_tcp "10.0.0.5".toList 502, .set_slave 1, .connect, .read_registers 0x40000 7,
         .close, .free] ∧
      (graphic_main short_read [.i "10.0.0.5".toList]).status = 1 := by
  rw [graphic_main_ok _ _ _ status_options_i]
  simp [graphic_session, short_read, boiler]

theorem fail_stop_in_every_variant_witness :
    FailStop no_connect (graphic_plan { ipaddr := "10.0.0.5".toList })
        (graphic_main no_connect [.i "10.0.0.5".toList]) ∧
      (graphic_main no_connect [.i "10.0.0.5".toList]).calls.count .close = 1 ∧
      (graphic_main no_connect [.i "10.0.0.5".toList]).calls.count .free = 1 :=
  (fail_stop_in_every_variant no_connect [.i "10.0.0.5".toList]).2.1 _ status_options_i

/-! ### Report lines and buffer bounds (C3, C4, C10) -/

/-- C3, evaluation at the failing input: when the holding read returns
`[0,0,0,0,0,0,365]`, `graphic` passes 36.5 and 96.8 to the "System Supply
Temp" line (the Fahrenheit argument is computed from the integer quotient
`365/10 = 36`), whereas the conversion of 36.5 °C is 97.7 °F. -/
theorem graphic_supply_temp_365 :
    (graphic_main (boiler [0, 0, 0, 0, 0, 0, 365] []) [.i "10.0.0.5".toList]).out.head? =
        some { text := "System Supply Temp: %5.1f°C %5.1f°F", vals := [.num 36.5, .num 96.8] } ∧
      c_to_f 36.5 = 97.7 := by
  constructor
  · rw [graphic_main_ok _ _ _ status_options_i]
    simp [graphic_session, boiler, Buf.reg, arg, toInt16, c_to_f, List.range_succ]
    rw [show Int.tdiv 365 10 = 36 from rfl]
    norm_num
  · norm_num [c_to_f]

/-- C4, evaluation at the failing input: the lines `tt-status_ro` prints when
holding reads return `[0,0,0,0,0,0,365]` and input reads return
`[100,0,0,55,400,365,300,500,40]`.  The first "System Supply Setp" line shows
132 (the conversion of 100/2 °C is 122), the first "System Supply Temp" line
shows 105 (the conversion of 36.5 °C is 97.7), and the "Outlet Temp" line shows
36.5, the Celsius value. -/
theorem tt_status_ro_report :
    (tt_status_ro_main (boiler [0, 0, 0, 0, 0, 0, 365] [100, 0, 0, 55, 400, 365, 300, 500, 40])
        [.i "10.0.0.5".toList]).out =
      [{ text := "System Supply Setp: %.1f °F", vals := [.num 132] },
       { text := "Reg0: %d ", vals := [.num 0] },
       { text := "Reg1: %d ", vals := [.num 0] },
       { text := "Reg2: %d ", vals := [.num 0] },
       { text := "Reg3: %d ", vals := [.num 0] },
       { text := "Reg4: %d ", vals := [.num 0] },
       { text := "Reg5: %d ", vals := [.num 0] },
       { text := "System Supply Temp: %.1f °F", vals := [.num 105] },
       { text := "Reg0: %d ", vals := [.num 0] },
       { text := "Reg1: %d ", vals := [.num 0] },
       { text := "Reg2: %d ", vals := [.num 0] },
       { text := "Reg3: %d ", vals := [.num 0] },
       { text := "Reg4: %d ", vals := [.num 0] },
       { text := "Reg5: %d ", vals := [.num 0] },
       { text := "System Supply Temp: %.1f °F", vals := [.num 97.7] },
       { text := "System Supply Setp: %.1f °F", vals := [.num 32] },
       { text := "System Supply Setp: %5.1f °F", vals := [.num 122] },
       { text := "Cascade Current Power: %5.1f %", vals := [.num 55] },
       { text := "Outlet Setp: %5.1f °F", vals := [.num 104] },
       { text := "Outlet Temp: %5.1f °F", vals := [.num 36.5] },
       { text := "Inlet Temp: %5.1f °F", vals := [.num 86] },
       { text := "Flue Temp: %5.1f °F", vals := [.num 122] },
       { text := "Firing Rate: %5.1f %", vals := [.outside] }] := by
  rw [tt_status_ro_main_ok _ _ _ status_options_i]
  simp [tt_status_ro_session, boiler, Buf.reg, arg, int_arg, toInt16, List.range_succ]
  norm_num

/-- C10, evaluation at the failing input: on a boiler that accepts every
operation `tt-status_ro` asks for 9 registers into its 8-element array and
then prints `regs[8]`, an element outside the array. -/
theorem tt_status_ro_overrun :
    (tt_status_ro_main (boiler [] []) [.i "10.0.0.5".toList]).overruns = [(8, 9)] ∧
      (tt_status_ro_main (boiler [] []) [.i "10.0.0.5".toList]).out.getLast? =
        some { text := "Firing Rate: %5.1f %", vals := [.outside] } ∧
      Call.read_input_registers 0x30003 9 ∈
        (tt_status_ro_main (boiler [] []) [.i "10.0.0.5".toList]).calls := by
  rw [tt_status_ro_main_ok _ _ _ status_options_i]
  simp [tt_status_ro_session, boiler, Buf.reg, arg, int_arg, toInt16, List.range_succ]

set_option maxHeartbeats 4000000 in
/-- No read of `change_sp` asks for more registers than `regs[8]` holds. -/
theorem change_sp_session_overruns (T : Transport) (cfg : SpConfig) :
    (change_sp_session T cfg).overruns = [] := by
  simp only [change_sp_session, apply_ite Run.overruns, out_label_overruns, emit_overruns,
    read_into_overruns, invoke_overruns, print_regs_overruns]
  simp

set_option maxHeartbeats 4000000 in
/-- No read of `graphic` asks for more registers than `hregs[9]`, `iregs[9]` hold. -/
theorem graphic_session_overruns (T : Transport) (cfg : Config) :
    (graphic_session T cfg).overruns = [] := by
  simp only [graphic_session, apply_ite Run.overruns, out_label_overruns, emit_overruns,
    read_into_overruns, invoke_overruns, print_regs_overruns]
  simp

/-! ### Transport selection (C7) -/

theorem findSome_reverse_cons {α : Type} (f : Opt → Option α) (o : Opt) (rest : List Opt) :
    (o :: rest).reverse.findSome? f = (rest.reverse.findSome? f).or (f o) := by
  rw [List.reverse_cons, List.findSome?_append]
  simp [List.findSome?]
  cases f o <;> rfl

theorem status_case_error (cfg : Config) (o : Opt) (e : Int)
    (h : status_case cfg o = .error e) : e = 1 := by
  cases o <;> simp [status_case] at h <;> exact h.symm

theorem status_getopt_error (argv : List Opt) (cfg : Config) (e : Int)
    (h : status_getopt cfg argv = .error e) : e = 1 := by
  induction argv generalizing cfg with
  | nil => simp [status_getopt] at h
  | cons o rest ih =>
    unfold status_getopt at h
    cases hc : status_case cfg o with
    | error e1 =>
      rw [hc] at h
      simp at h
      exact status_case_error cfg o e (h ▸ hc)
    | ok cfg1 =>
      rw [hc] at h
      exact ih cfg1 h

theorem take_31_take_31 (l : List Char) : (l.take 31).take 31 = l.take 31 := by
  rw [List.take_take]; simp

theorem status_getopt_ok (argv : List Opt) (cfg0 cfg : Config)
    (h : status_getopt cfg0 argv = .ok cfg) (h0 : cfg0.serport.take 31 = cfg0.serport) :
    cfg.ipaddr = ((argv.reverse.findSome? Opt.i_arg).map (List.take 16)).getD cfg0.ipaddr ∧
    cfg.serport = ((argv.reverse.findSome? Opt.s_arg).map (List.take 31)).getD cfg0.serport ∧
    cfg.port = (argv.reverse.findSome? Opt.p_arg).getD cfg0.port ∧
    ∀ o ∈ argv, status_accepts o := by
  induction argv generalizing cfg0 with
  | nil =>
    simp [status_getopt] at h
    subst h
    simp
  | cons o rest ih =>
    unfold status_getopt at h
    cases hc : status_case cfg0 o with
    | error e1 => rw [hc] at h; simp at h
    | ok cfg1 =>
      rw [hc] at h
      simp only at h
      rw [findSome_reverse_cons, findSome_reverse_cons, findSome_reverse_cons]
      cases o with
      | h => simp [status_case] at hc
      | unknown => simp [status_case] at hc
      | t n => simp [status_case] at hc
      | s a =>
        simp [status_case, strncpy, nul_at] at hc
        subst hc
        obtain ⟨i1, i2, i3, i4⟩ := ih _ h (take_31_take_31 _)
        refine ⟨?_, ?_, ?_, ?_⟩
        · rw [i1]; simp [Opt.i_arg]
        · rw [i2]
          cases hs : rest.reverse.findSome? Opt.s_arg with
          | none =>
            simp [Opt.s_arg]
            rw [List.take_take]; rfl
          | some b => simp [Opt.s_arg]
        · rw [i3]; simp [Opt.p_arg]
        · intro o ho
          rcases List.mem_cons.mp ho with rfl | ho
          · simp [status_accepts]
          · exact i4 o ho
      | i a =>
        simp [status_case, strncpy, nul_at] at hc
        subst hc
        obtain ⟨i1, i2, i3, i4⟩ := ih _ h (take_31_take_31 _)
        refine ⟨?_, ?_, ?_, ?_⟩
        · rw [i1]
          cases hs : rest.reverse.findSome? Opt.i_arg <;> simp [Opt.i_arg]
        · rw [i2]
          simp only [h0]
          simp [Opt.s_arg]
        · rw [i3]; simp [Opt.p_arg]
        · intro o ho
          rcases List.mem_cons.mp ho with rfl | ho
          · simp [status_accepts]
          · exact i4 o ho
      | p n =>
        simp [status_case] at hc
        subst hc
        obtain ⟨i1, i2, i3, i4⟩ := ih _ h h0
        refine ⟨?_, ?_, ?_, ?_⟩
        · rw [i1]; simp [Opt.i_arg]
        · rw [i2]; simp [Opt.s_arg]
        · rw [i3]
          cases hs : rest.reverse.findSome? Opt.p_arg <;> simp [Opt.p_arg]
        · intro o ho
          rcases List.mem_cons.mp ho with rfl | ho
          · simp [status_accepts]
          · exact i4 o ho

theorem status_getopt_accepts (argv : List Opt) (cfg0 : Config)
    (h : ∀ o ∈ argv, status_accepts o) : ∃ cfg, status_getopt cfg0 argv = .ok cfg := by
  induction argv generalizing cfg0 with
  | nil => exact ⟨cfg0, rfl⟩
  | cons o rest ih =>
    have ho := h o (List.mem_cons_self _ _)
    have hr : ∀ o ∈ rest, status_accepts o := fun x hx => h x (List.mem_cons_of_mem _ hx)
    unfold status_getopt
    cases o with
    | h => simp [status_accepts] at ho
    | unknown => simp [status_accepts] at ho
    | t n => simp [status_accepts] at ho
    | s a => simp only [status_case]; exact ih _ hr
    | i a => simp only [status_case]; exact ih _ hr
    | p n => simp only [status_case]; exact ih _ hr

theorem change_sp_getopt_ok (argv : List Opt) (cfg0 cfg : SpConfig)
    (h : change_sp_getopt cfg0 argv = .ok cfg) (h0 : cfg0.serport.take 31 = cfg0.serport) :
    cfg.ipaddr = ((argv.reverse.findSome? Opt.i_arg).map (List.take 16)).getD cfg0.ipaddr ∧
    cfg.serport = ((argv.reverse.findSome? Opt.s_arg).map (List.take 31)).getD cfg0.serport ∧
    cfg.port = (argv.reverse.findSome? Opt.p_arg).getD cfg0.port ∧
    ∀ o ∈ argv, change_sp_accepts o := by
  induction argv generalizing cfg0 with
  | nil =>
    simp [change_sp_getopt] at h
    subst h
    simp
  | cons o rest ih =>
    unfold change_sp_getopt at h
    cases hc : change_sp_case cfg0 o with
    | error e1 => rw [hc] at h; simp at h
    | ok cfg1 =>
      rw [hc] at h
      simp only at h
      rw [findSome_reverse_cons, findSome_reverse_cons, findSome_reverse_cons]
      cases o with
      | h => simp [change_sp_case] at hc
      | unknown => simp [change_sp_case] at hc
      | t n =>
        rw [change_sp_case_t] at hc
        split_ifs at hc with hr
        simp at hc
        subst hc
        obtain ⟨i1, i2, i3, i4⟩ := ih _ h h0
        refine ⟨?_, ?_, ?_, ?_⟩
        · rw [i1]; simp [Opt.i_arg]
        · rw [i2]; simp [Opt.s_arg]
        · rw [i3]; simp [Opt.p_arg]
        · intro o ho
          rcases List.mem_cons.mp ho with rfl | ho
          · simp only [change_sp_accepts]
            rw [← setpoint_percent_range]
            omega
          · exact i4 o ho
      | s a =>
        simp [change_sp_case, strncpy, nul_at] at hc
        subst hc
        obtain ⟨i1, i2, i3, i4⟩ := ih _ h (take_31_take_31 _)
        refine ⟨?_, ?_, ?_, ?_⟩
        · rw [i1]; simp [Opt.i_arg]
        · rw [i2]
          cases hs : rest.reverse.findSome? Opt.s_arg with
          | none =>
            simp [Opt.s_arg]
            rw [List.take_take]; rfl
          | some b => simp [Opt.s_arg]
        · rw [i3]; simp [Opt.p_arg]
        · intro o ho
          rcases List.mem_cons.mp ho with rfl | ho
          · simp [change_sp_accepts]
          · exact i4 o ho
      | i a =>
        simp [change_sp_case, strncpy, nul_at] at hc
        subst hc
        obtain ⟨i1, i2, i3, i4⟩ := ih _ h (take_31_take_31 _)
        refine ⟨?_, ?_, ?_, ?_⟩
        · rw [i1]
          cases hs : rest.reverse.findSome? Opt.i_arg <;> simp [Opt.i_arg]
        · rw [i2]
          simp only [h0]
          simp [Opt.s_arg]
        · rw [i3]; simp [Opt.p_arg]
        · intro o ho
          rcases List.mem_cons.mp ho with rfl | ho
          · simp [change_sp_accepts]
          · exact i4 o ho
      | p n =>
        simp [change_sp_case] at hc
        subst hc
        obtain ⟨i1, i2, i3, i4⟩ := ih _ h h0
        refine ⟨?_, ?_, ?_, ?_⟩
        · rw [i1]; simp [Opt.i_arg]
        · rw [i2]; simp [Opt.s_arg]
        · rw [i3]
          cases hs : rest.reverse.findSome? Opt.p_arg <;> simp [Opt.p_arg]
        · intro o ho
          rcases List.mem_cons.mp ho with rfl | ho
          · simp [change_sp_accepts]
          · exact i4 o ho

theorem change_sp_getopt_accepts (argv : List Opt) (cfg0 : SpConfig)
    (h : ∀ o ∈ argv, change_sp_accepts o) : ∃ cfg, change_sp_getopt cfg0 argv = .ok cfg := by
  induction argv generalizing cfg0 with
  | nil => exact ⟨cfg0, rfl⟩
  | cons o rest ih =>
    have ho := h o (List.mem_cons_self _ _)
    have hr : ∀ o ∈ rest, change_sp_accepts o := fun x hx => h x (List.mem_cons_of_mem _ hx)
    unfold change_sp_getopt
    cases o with
    | h => simp [change_sp_accepts] at ho
    | unknown => simp [change_sp_accepts] at ho
    | t n =>
      simp only [change_sp_accepts] at ho
      have := (setpoint_percent_range n).mpr ho
      rw [change_sp_case_t, if_neg (by omega)]
      exact ih _ hr
    | s a => simp only [change_sp_case]; exact ih _ hr
    | i a => simp only [change_sp_case]; exact ih _ hr
    | p n => simp only [change_sp_case]; exact ih _ hr

theorem take_eq_nil_pos (n : Nat) (hn : 0 < n) (l : List Char) : l.take n = [] ↔ l = [] := by
  cases l with
  | nil => simp
  | cons a t =>
    cases n with
    | zero => omega
    | succ m => simp

/-- What the option handling of `graphic` and `tt-status_ro` yields, in terms
of the command line. -/
theorem status_options_spec (argv : List Opt) :
    (((given_i argv ≠ [] ∧ given_s argv ≠ []) ∨ (given_i argv = [] ∧ given_s argv = []) ∨
        ¬ (∀ o ∈ argv, status_accepts o)) → status_options argv = .error 1) ∧
    ((∀ o ∈ argv, status_accepts o) → ((given_i argv = []) ↔ ¬ (given_s argv = [])) →
      status_options argv =
        .ok { port := given_p argv, ipaddr := (given_i argv).take 16,
              serport := (given_s argv).take 31 }) := by
  unfold status_options
  cases hg : status_getopt {} argv with
  | error e =>
    have he := status_getopt_error argv {} e hg
    subst he
    refine ⟨fun _ => rfl, ?_⟩
    intro hacc
    obtain ⟨cfg, hcfg⟩ := status_getopt_accepts argv {} hacc
    rw [hcfg] at hg
    simp at hg
  | ok cfg =>
    obtain ⟨i1, i2, i3, i4⟩ := status_getopt_ok argv {} cfg hg rfl
    have e1 : cfg.ipaddr = (given_i argv).take 16 := by
      rw [i1]; unfold given_i
      cases argv.reverse.findSome? Opt.i_arg <;> simp
    have e2 : cfg.serport = (given_s argv).take 31 := by
      rw [i2]; unfold given_s
      cases argv.reverse.findSome? Opt.s_arg <;> simp
    have e3 : cfg.port = given_p argv := by
      rw [i3]; rfl
    have n1 : cfg.ipaddr = [] ↔ given_i argv = [] := by
      rw [e1]; exact take_eq_nil_pos 16 (by decide) _
    have n2 : cfg.serport = [] ↔ given_s argv = [] := by
      rw [e2]; exact take_eq_nil_pos 31 (by decide) _
    simp only
    constructor
    · intro h
      rcases h with ⟨h1, h2⟩ | ⟨h1, h2⟩ | h3
      · rw [if_neg (by tauto), if_pos (by tauto)]
      · rw [if_pos (by tauto)]
      · exact absurd i4 h3
    · intro _ hx
      rw [if_neg (by tauto), if_neg (by tauto)]
      congr 1
      cases cfg
      simp only at e1 e2 e3
      simp [e1, e2, e3]

/-- What the option handling of `change_sp` yields, in terms of the command line. -/
theorem change_sp_options_spec (argv : List Opt) :
    (((given_i argv ≠ [] ∧ given_s argv ≠ []) ∨ (given_i argv = [] ∧ given_s argv = []) ∨
        ¬ (∀ o ∈ argv, change_sp_accepts o)) → change_sp_options argv = .error 1) ∧
    ((∀ o ∈ argv, change_sp_accepts o) → ((given_i argv = []) ↔ ¬ (given_s argv = [])) →
      ∃ cfg, change_sp_options argv = .ok cfg ∧ cfg.port = given_p argv ∧
        cfg.ipaddr = (given_i argv).take 16 ∧ cfg.serport = (given_s argv).take 31) := by
  unfold change_sp_options
  cases hg : change_sp_getopt {} argv with
  | error e =>
    have he := change_sp_getopt_error argv {} e hg
    subst he
    refine ⟨fun _ => rfl, ?_⟩
    intro hacc
    obtain ⟨cfg, hcfg⟩ := change_sp_getopt_accepts argv {} hacc
    rw [hcfg] at hg
    simp at hg
  | ok cfg =>
    obtain ⟨i1, i2, i3, i4⟩ := change_sp_getopt_ok argv {} cfg hg rfl
    have e1 : cfg.ipaddr = (given_i argv).take 16 := by
      rw [i1]; unfold given_i
      cases argv.reverse.findSome? Opt.i_arg <;> simp
    have e2 : cfg.serport = (given_s argv).take 31 := by
      rw [i2]; unfold given_s
      cases argv.reverse.findSome? Opt.s_arg <;> simp
    have e3 : cfg.port = given_p argv := by
      rw [i3]; rfl
    have n1 : cfg.ipaddr = [] ↔ given_i argv = [] := by
      rw [e1]; exact take_eq_nil_pos 16 (by decide) _
    have n2 : cfg.serport = [] ↔ given_s argv = [] := by
      rw [e2]; exact take_eq_nil_pos 31 (by decide) _
    simp only
    constructor
    · intro h
      rcases h with ⟨h1, h2⟩ | ⟨h1, h2⟩ | h3
      · rw [if_neg (by tauto), if_pos (by tauto)]
      · rw [if_pos (by tauto)]
      · exact absurd i4 h3
    · intro _ hx
      rw [if_neg (by tauto), if_neg (by tauto)]
      exact ⟨cfg, rfl, e3, e1, e2⟩

theorem failStop_constructors (T : Transport) (c0 : Call) (rest : List Call) (r : Run)
    (h : FailStop T (c0 :: rest) r) (h0 : c0.is_constructor = true)
    (hr : ∀ c ∈ rest, c.is_constructor = false) :
    r.calls.filter Call.is_constructor = [c0] := by
  have key : ∀ n, ((c0 :: rest.take n) ++ [Call.close, Call.free]).filter Call.is_constructor
      = [c0] := by
    intro n
    have : (rest.take n).filter Call.is_constructor = [] := by
      rw [List.filter_eq_nil_iff]
      intro c hc
      simp [hr c (List.mem_of_mem_take hc)]
    rw [List.cons_append, List.filter_cons_of_pos h0, List.filter_append, this]
    rfl
  rcases h with ⟨_, h2, _⟩ | ⟨_, k, c, _, h2, _⟩
  · have := key rest.length
    rw [List.take_length] at this
    rw [h2]; exact this
  · rw [h2, List.take_succ_cons]; exact key k

theorem change_sp_constructor (T : Transport) (cfg : SpConfig) :
    (change_sp_session T cfg).calls.filter Call.is_constructor =
      [if cfg.ipaddr ≠ [] then .new_tcp cfg.ipaddr cfg.port
       else .new_rtu cfg.serport 9600 'E' 8 1] := by
  apply failStop_constructors T _ _ _ (change_sp_session_failStop T cfg)
  · split_ifs <;> rfl
  · intro c hc
    simp at hc
    rcases hc with rfl | rfl | rfl | rfl | rfl | rfl <;> rfl

theorem graphic_constructor (T : Transport) (cfg : Config) :
    (graphic_session T cfg).calls.filter Call.is_constructor =
      [if cfg.ipaddr ≠ [] then .new_tcp cfg.ipaddr cfg.port
       else .new_rtu cfg.serport 38400 'N' 8 1] := by
  apply failStop_constructors T _ _ _ (graphic_session_failStop T cfg)
  · split_ifs <;> rfl
  · intro c hc
    simp at hc
    rcases hc with rfl | rfl | rfl | rfl <;> rfl

theorem tt_status_ro_constructor (T : Transport) (cfg : Config) :
    (tt_status_ro_session T cfg).calls.filter Call.is_constructor =
      [if cfg.ipaddr ≠ [] then .new_tcp cfg.ipaddr cfg.port
       else .new_rtu cfg.serport 9600 'E' 8 1] := by
  apply failStop_constructors T _ _ _ (tt_status_ro_session_failStop T cfg)
  · split_ifs <;> rfl
  · intro c hc
    simp at hc
    rcases hc with rfl | rfl | rfl | rfl | rfl | rfl <;> rfl

theorem graphic_main_error (T : Transport) (argv : List Opt)
    (h : status_options argv = .error 1) : graphic_main T argv = exit_with 1 := by
  simp [graphic_main, h]

theorem tt_status_ro_main_error (T : Transport) (argv : List Opt)
    (h : status_options argv = .error 1) : tt_status_ro_main T argv = exit_with 1 := by
  simp [tt_status_ro_main, h]

/-- C7, counterexample: with `-i 10.0.0.5 -h` exactly one of address and
device is given, yet every program exits with status 1 without constructing a
context. -/
theorem selection_with_help_counterexample :
    given_i [.i "10.0.0.5".toList, .h] = "10.0.0.5".toList ∧
    given_s [.i "10.0.0.5".toList, .h] = [] ∧
    (change_sp_main (boiler [] []) [.i "10.0.0.5".toList, .h]).calls = [] ∧
    (change_sp_main (boiler [] []) [.i "10.0.0.5".toList, .h]).status = 1 ∧
    (graphic_main (boiler [] []) [.i "10.0.0.5".toList, .h]).calls = [] ∧
    (graphic_main (boiler [] []) [.i "10.0.0.5".toList, .h]).status = 1 ∧
    (tt_status_ro_main (boiler [] []) [.i "10.0.0.5".toList, .h]).calls = [] ∧
    (tt_status_ro_main (boiler [] []) [.i "10.0.0.5".toList, .h]).status = 1 := by
  refine ⟨by decide, by decide, ?_, ?_, ?_, ?_, ?_, ?_⟩ <;> decide

/-- C7, amended.  "Given" refers to the argument of the last `-s` / `-i` on
the command line.  In every program: when both a non-empty device and a
non-empty address are given, or neither is, or the option loop meets an
option it does not accept (`-h`, an unrecognised option, for `change_sp` a
`-t` outside 58..116, for the others any `-t`), the program exits with status
1 and makes no transport call.  Otherwise exactly one constructor is invoked:
`modbus_new_tcp` with the first 16 characters of the address and the port of
the last `-p` (502 when there is none) when the address is given, and
`modbus_new_rtu` with the first 31 characters of the device (9600/E/8/1 in
`change_sp` and `tt-status_ro`, 38400/N/8/1 in `graphic`) when the device is
given. -/
theorem transport_selection (T : Transport) (argv : List Opt)
    (sel : Call) (sel_graphic : Call)
    (hsel : sel = if given_i argv ≠ [] then Call.new_tcp ((given_i argv).take 16) (given_p argv)
      else Call.new_rtu ((given_s argv).take 31) 9600 'E' 8 1)
    (hsel_graphic : sel_graphic =
      if given_i argv ≠ [] then Call.new_tcp ((given_i argv).take 16) (given_p argv)
      else Call.new_rtu ((given_s argv).take 31) 38400 'N' 8 1) :
    (((given_i argv ≠ [] ∧ given_s argv ≠ []) ∨ (given_i argv = [] ∧ given_s argv = [])) →
      ((change_sp_main T argv).status = 1 ∧ (change_sp_main T argv).calls = []) ∧
      ((graphic_main T argv).status = 1 ∧ (graphic_main T argv).calls = []) ∧
      ((tt_status_ro_main T argv).status = 1 ∧ (tt_status_ro_main T argv).calls = [])) ∧
    (¬ (∀ o ∈ argv, change_sp_accepts o) →
      (change_sp_main T argv).status = 1 ∧ (change_sp_main T argv).calls = []) ∧
    (¬ (∀ o ∈ argv, status_accepts o) →
      ((graphic_main T argv).status = 1 ∧ (graphic_main T argv).calls = []) ∧
      ((tt_status_ro_main T argv).status = 1 ∧ (tt_status_ro_main T argv).calls = [])) ∧
    (((given_i argv = []) ↔ ¬ (given_s argv = [])) →
      ((∀ o ∈ argv, change_sp_accepts o) →
        (change_sp_main T argv).calls.filter Call.is_constructor = [sel]) ∧
      ((∀ o ∈ argv, status_accepts o) →
        (graphic_main T argv).calls.filter Call.is_constructor = [sel_graphic] ∧
        (tt_status_ro_main T argv).calls.filter Call.is_constructor = [sel])) := by
  have hs := status_options_spec argv
  have hc := change_sp_options_spec argv
  refine ⟨?_, ?_, ?_, ?_⟩
  · intro h
    have e1 : change_sp_options argv = .error 1 := hc.1 (by tauto)
    have e2 : status_options argv = .error 1 := hs.1 (by tauto)
    rw [change_sp_main_error T argv 1 e1, graphic_main_error T argv e2,
      tt_status_ro_main_error T argv e2]
    simp [exit_with]
  · intro h
    have e1 : change_sp_options argv = .error 1 := hc.1 (Or.inr (Or.inr h))
    rw [change_sp_main_error T argv 1 e1]
    simp [exit_with]
  · intro h
    have e2 : status_options argv = .error 1 := hs.1 (Or.inr (Or.inr h))
    rw [graphic_main_error T argv e2, tt_status_ro_main_error T argv e2]
    simp [exit_with]
  · intro hx
    have n1 : (given_i argv).take 16 = [] ↔ given_i argv = [] :=
      take_eq_nil_pos 16 (by decide) _
    constructor
    · intro hacc
      obtain ⟨cfg, h1, h2, h3, h4⟩ := hc.2 hacc hx
      rw [change_sp_main_ok T argv cfg h1, change_sp_constructor, hsel, h2, h3, h4]
      by_cases hi : given_i argv = [] <;> simp [hi]
    · intro hacc
      have h1 := hs.2 hacc hx
      rw [graphic_main_ok T argv _ h1, tt_status_ro_main_ok T argv _ h1, graphic_constructor,
        tt_status_ro_constructor, hsel, hsel_graphic]
      by_cases hi : given_i argv = [] <;> simp [hi]

theorem transport_selection_witness :
    (graphic_main (boiler [] []) [.i "10.0.0.5".toList]).calls.filter Call.is_constructor =
        [.new_tcp "10.0.0.5".toList 502] ∧
      (tt_status_ro_main (boiler [] []) [.i "10.0.0.5".toList]).calls.filter
        Call.is_constructor = [.new_tcp "10.0.0.5".toList 502] :=
  (transport_selection (boiler [] []) [.i "10.0.0.5".toList]
    (.new_tcp "10.0.0.5".toList 502) (.new_tcp "10.0.0.5".toList 502)
    (by decide) (by decide)).2.2.2 (by decide) |>.2 (by
      intro o ho
      simp at ho
      subst ho
      simp [status_accepts])

end Chronos
